import Mathlib

/-!
Verification of the scw init flow (internal/namespaces/init/init.go).

The flow is shallowly embedded: every interactive prompt and every Account
Service call is an injected, scripted collaborator (the spec, section 6,
treats them as external interfaces returning either a value or an error),
and each function of the source becomes a Lean function over those scripts
that additionally records which effects occurred (call counts, prompt
configurations, configs passed to save), so that claims about ordering and
call counts can be stated.
-/

namespace ScwInit

deriving instance DecidableEq for Except

/-- Errors. Go errors are opaque values; the constructors cover the shapes the
flow distinguishes: a cancellation or EOF from a prompt, a plain message error
built with fmt.Errorf, a remote Account Service error, and the CliError of the
core package, which wraps an error together with a human-readable Details
string (used by Run for the access-key failure). -/
inductive Err where
  | cancelled : Err
  | msg : String → Err
  | remote : String → Err
  | cli : Err → String → Err
deriving DecidableEq, Repr

/-- The token returned by account.Login (init.go line 277): only its SecretKey
field is read by the flow. -/
structure Token where
  secretKey : String
deriving DecidableEq, Repr

/-- Modelled from the spec: hexadecimal digit test used by the UUID shape
(the validation package of scaleway-sdk-go is not under src). -/
def isHexDigit (c : Char) : Bool :=
  (decide (48 ≤ c.toNat) && decide (c.toNat ≤ 57)) ||
  (decide (97 ≤ c.toNat) && decide (c.toNat ≤ 102)) ||
  (decide (65 ≤ c.toNat) && decide (c.toNat ≤ 70))

/-- Modelled from the spec: in the 36-character UUID shape 8-4-4-4-12, the
character at position i is a dash at positions 8, 13, 18 and 23 and a hex
digit everywhere else. -/
def uuidCharAt (i : Nat) (c : Char) : Bool :=
  if i == 8 || i == 13 || i == 18 || i == 23 then c == '-' else isHexDigit c

/-- Character-by-character check of the UUID shape starting at position i. -/
def uuidChars : Nat → List Char → Bool
  | _, [] => true
  | i, c :: cs => uuidCharAt i c && uuidChars (i + 1) cs

/-- Modelled from the spec: validation.IsUUID, the secret-key and UUID shape
predicate (spec sections 3 and 4.1: a 36-character 8-4-4-4-12 hex shape). -/
def isUUID (s : String) : Bool :=
  s.toList.length == 36 && uuidChars 0 s.toList

/-- Split a character list at the first at-sign, returning the parts before
and after it, or none when no at-sign occurs. -/
def splitAtSign : List Char → Option (List Char × List Char)
  | [] => none
  | c :: cs =>
    if c = '@' then some ([], cs)
    else (splitAtSign cs).map fun p => (c :: p.1, p.2)

/-- Modelled from the spec: validation.IsEmail, the email-address shape
predicate (spec section 4.1): a nonempty local part, an at-sign, and a
nonempty domain part. -/
def isEmail (s : String) : Bool :=
  match splitAtSign s.toList with
  | some (l, d) => !l.isEmpty && !d.isEmpty
  | none => false

/-- Modelled from the spec: validation.IsSecretKey. The spec (sections 3, 4.1
and 8) identifies the secret-key shape with the UUID shape, and the sdk
package holding the real predicate is not under src. -/
def isSecretKey (s : String) : Bool := isUUID s

/-- The validator installed on the secret-key readline (init.go lines
253-258): a string is accepted when it is email-shaped or secret-key-shaped. -/
def secretKeyPromptValidator (s : String) : Bool :=
  isEmail s || isSecretKey s

/-- Outcome of the classification switch of promptSecretKey. -/
inductive Classified where
  | email : Classified
  | uuid : Classified
  | invalid : Classified
deriving DecidableEq, Repr

/-- The classification switch of promptSecretKey (init.go lines 264-298),
parametric in the two shape predicates it consults: the email case is tested
first, then the UUID case, and everything else falls to the default case. -/
def classify (isEmailP isUUIDP : String → Bool) (s : String) : Classified :=
  if isEmailP s then Classified.email
  else if isUUIDP s then Classified.uuid
  else Classified.invalid

/-- Scripted collaborators of promptSecretKey: the readline result, the
password prompt result, the successive account.Login results (token and
twoFactorRequired flag) and the successive 2FA-code prompt results. -/
structure SecretKeyEnv where
  readline : Except Err String
  password : Except Err String
  logins : List (Except Err (Token × Bool))
  twoFACodes : List (Except Err String)

/-- Outcome of the authentication loop: the returned value (none when the
script ran out, which models a run longer than the script), the number of
login calls issued and the number of 2FA prompts issued. -/
structure LoopOutcome where
  result : Option (Except Err String)
  loginCalls : Nat
  twoFAPrompts : Nat
deriving DecidableEq, Repr

/-- The authentication loop of promptSecretKey (init.go lines 279-291): call
Login; a hard error aborts; a response without twoFactorRequired returns its
secret key; otherwise prompt for a 2FA code (a prompt error aborts) and loop. -/
def loginLoop : List (Except Err (Token × Bool)) → List (Except Err String) → LoopOutcome
  | [], _ => ⟨none, 0, 0⟩
  | .error e :: _, _ => ⟨some (.error e), 1, 0⟩
  | .ok (t, false) :: _, _ => ⟨some (.ok t.secretKey), 1, 0⟩
  | .ok (_, true) :: _, [] => ⟨none, 1, 0⟩
  | .ok (_, true) :: _, .error e :: _ => ⟨some (.error e), 1, 1⟩
  | .ok (_, true) :: rs, .ok _ :: cs =>
    let r := loginLoop rs cs
    ⟨r.result, r.loginCalls + 1, r.twoFAPrompts + 1⟩

/-- Outcome of promptSecretKey: its returned value plus the number of login
calls, password prompts and 2FA prompts it issued. -/
structure SKOutcome where
  result : Option (Except Err String)
  loginCalls : Nat
  passwordPrompts : Nat
  twoFAPrompts : Nat
deriving DecidableEq, Repr

/-- A single-quote character as a string, used by the default-case error
message of promptSecretKey. -/
def quoteMark : String := (Char.ofNat 39).toString

/-- promptSecretKey (init.go lines 241-299): read a line validated by
secretKeyPromptValidator; on the email case prompt for a password and run the
authentication loop; on the UUID case return the literal input with no remote
call; the default case returns the invalid-email-or-secret-key error. -/
def promptSecretKey (env : SecretKeyEnv) : SKOutcome :=
  match env.readline with
  | .error e => ⟨some (.error e), 0, 0, 0⟩
  | .ok s =>
    match classify isEmail isUUID s with
    | Classified.email =>
      match env.password with
      | .error e => ⟨some (.error e), 0, 1, 0⟩
      | .ok _ =>
        let r := loginLoop env.logins env.twoFACodes
        ⟨r.result, r.loginCalls, 1, r.twoFAPrompts⟩
    | Classified.uuid => ⟨some (.ok s), 0, 0, 0⟩
    | Classified.invalid =>
      ⟨some (.error (.msg ("invalid email or secret-key: " ++ quoteMark ++ s ++ quoteMark))), 0, 0, 0⟩

/-- Configuration of a string prompt (interactive.PromptStringConfig): the
prompt text, the default value and its documentation string (empty when no
default was installed, matching the Go zero value), and the validator. -/
structure PromptStringConfig where
  prompt : String
  defaultValue : String
  defaultValueDoc : String
  validate : String → Bool

/-- Modelled from the spec: interactive.ValidateOrganizationID (the
interactive package is not under src); section 4.4 calls it the
organization-ID shape validator, and the organization ID is UUID-shaped. -/
def validateOrganizationID : String → Bool := isUUID

/-- Scripted collaborators of the organization resolver: the Account Service
organization-list query, as a function of the secret key, and the string
prompt, as a function of the configuration it is invoked with. -/
structure OrgEnv where
  getOrganizationsIds : String → Except Err (List String)
  promptString : PromptStringConfig → Except Err String

/-- promptOrganizationID (init.go lines 316-330): build a prompt configuration
with the organization-ID validator, install IDs[0] as the default when the
list is nonempty, and run the prompt. Returns the prompt result together with
the configuration that was used, so theorems can inspect the offered default. -/
def promptOrganizationID (ps : PromptStringConfig → Except Err String)
    (IDs : List String) : Except Err String × PromptStringConfig :=
  let base : PromptStringConfig :=
    { prompt := "Enter your Organization ID", defaultValue := "",
      defaultValueDoc := "", validate := validateOrganizationID }
  let config :=
    if IDs.length > 0 then
      { base with defaultValue := IDs.getD 0 "", defaultValueDoc := IDs.getD 0 "" }
    else base
  (ps config, config)

/-- Outcome of the organization resolver: its returned value, the
configurations of the prompts it issued (empty means no prompt ran) and the
warnings it logged. -/
structure OrgOutcome where
  result : Except Err String
  prompted : List PromptStringConfig
  warned : List Err

/-- getOrganizationID (init.go lines 304-314): query the organization list
for the secret key; on a query error log a warning and prompt over the empty
list; when the list length differs from one, prompt over the list; when
exactly one ID was returned, return it without prompting. -/
def getOrganizationID (env : OrgEnv) (secretKey : String) : OrgOutcome :=
  match env.getOrganizationsIds secretKey with
  | .error e =>
    let r := promptOrganizationID env.promptString []
    ⟨r.1, [r.2], [e]⟩
  | .ok IDs =>
    if IDs.length ≠ 1 then
      let r := promptOrganizationID env.promptString IDs
      ⟨r.1, [r.2], []⟩
    else ⟨.ok (IDs.getD 0 ""), [], []⟩

/-- The active profile of the config (scw.Profile): the fields the flow
writes. Absent fields are none, matching unset pointers. -/
structure Profile where
  secretKey : Option String
  defaultZone : Option String
  defaultRegion : Option String
  defaultOrganizationID : Option String
  accessKey : Option String
deriving DecidableEq, Repr

/-- A profile with every field unset. -/
def emptyProfile : Profile := ⟨none, none, none, none, none⟩

/-- The on-disk config record (scw.Config) restricted to what the flow
touches: the global send-usage flag and the active profile. -/
structure Config where
  sendUsage : Bool
  activeProfile : Profile
deriving DecidableEq, Repr

/-- The arguments of the init command (InitArgs, init.go lines 58-64). Zone
and region are kept as strings; SendUsage is a nullable boolean. -/
structure InitArgs where
  secretKey : String
  region : String
  zone : String
  organizationID : String
  sendUsage : Option Bool
deriving DecidableEq, Repr

/-- Run, lines 197-201: use the loaded config, or a fresh empty one when
loading failed (absence of a config is not an error). -/
def loadOrNewConfig (r : Except Err Config) : Config :=
  match r with
  | .error _ => { sendUsage := false, activeProfile := emptyProfile }
  | .ok c => c

/-- Run, lines 203-205: overwrite the global send-usage flag when the
argument was resolved. -/
def applySendUsage (c : Config) (su : Option Bool) : Config :=
  match su with
  | some b => { c with sendUsage := b }
  | none => c

/-- Run, lines 212-215: overwrite the four profile fields from the resolved
arguments. -/
def setProfileFields (c : Config) (args : InitArgs) : Config :=
  { c with activeProfile :=
    { c.activeProfile with
        secretKey := some args.secretKey,
        defaultZone := some args.zone,
        defaultRegion := some args.region,
        defaultOrganizationID := some args.organizationID } }

/-- Run, line 230: attach the fetched access key to the profile. -/
def setAccessKey (c : Config) (ak : String) : Config :=
  { c with activeProfile := { c.activeProfile with accessKey := some ak } }

/-- The Details string of the CliError returned when the access-key fetch
fails (init.go line 227). -/
def accessKeyFailDetails : String :=
  "Failed to retrieve Access Key for the given Secret Key."

/-- Scripted collaborators of Run: the config load, the outcome of
config.GetActiveProfile, the outcomes of the first and second save, and the
Account Service access-key fetch as a function of the secret key. -/
structure RunEnv where
  loadConfig : Except Err Config
  activeProfileOk : Except Err Unit
  save1 : Option Err
  save2 : Option Err
  getAccessKey : String → Except Err String

/-- Outcome of Run: its returned value and the configs passed to save, in
order. -/
structure RunOutcome where
  result : Except Err Unit
  saves : List Config
deriving DecidableEq, Repr

/-- Run (init.go lines 192-237): load or create the config, apply the
send-usage flag, obtain the active profile (an error aborts), overwrite the
profile fields, save; then fetch the access key — on failure return the
CliError carrying accessKeyFailDetails, with only the first save performed;
on success attach the key and save a second time. -/
def run (env : RunEnv) (args : InitArgs) : RunOutcome :=
  let config0 := applySendUsage (loadOrNewConfig env.loadConfig) args.sendUsage
  match env.activeProfileOk with
  | .error e => ⟨.error e, []⟩
  | .ok _ =>
    let config1 := setProfileFields config0 args
    match env.save1 with
    | some e => ⟨.error e, [config1]⟩
    | none =>
      match env.getAccessKey args.secretKey with
      | .error e => ⟨.error (.cli e accessKeyFailDetails), [config1]⟩
      | .ok ak =>
        let config2 := setAccessKey config1 ak
        match env.save2 with
        | some e => ⟨.error e, [config1, config2]⟩
        | none => ⟨.ok (), [config1, config2]⟩

/-- Modelled from the spec: the fixed zone-to-region mapping behind
Zone.Region of the sdk (spec sections 4.3 and 8): each of the three known
zones of the command (init.go lines 80-85) maps to its region, and a zone
with no known region is a hard error. -/
def zoneRegion : String → Except Err String
  | "fr-par-1" => .ok "fr-par"
  | "fr-par-2" => .ok "fr-par"
  | "nl-ams-1" => .ok "nl-ams"
  | z => .error (.msg ("no region found for zone " ++ z))

/-- Scripted collaborators of PreValidateFunc: the config load, the override
confirmation prompt, the collaborators of promptSecretKey, the zone prompt,
scw.ParseZone (an sdk function kept abstract), the collaborators of the
organization resolver, and the send-usage confirmation prompt. -/
structure PreValidateEnv where
  loadConfig : Except Err Config
  promptOverride : Except Err Bool
  secretKeyEnv : SecretKeyEnv
  promptZone : Except Err String
  parseZone : String → Except Err String
  orgEnv : OrgEnv
  promptSendUsage : Except Err Bool

/-- Outcome of PreValidateFunc: its returned value (the updated arguments on
success; none when a script ran out inside promptSecretKey), the outcome of
promptSecretKey when it ran, whether the zone prompt ran, the outcome of the
organization resolver when it ran, and whether the send-usage prompt ran. -/
structure PreOutcome where
  result : Option (Except Err InitArgs)
  sk : Option SKOutcome
  zonePromptRan : Bool
  org : Option OrgOutcome
  sendUsageRan : Bool

/-- The override gate of PreValidateFunc (init.go lines 104-128): when a
config loaded, ask for confirmation to override; a prompt error propagates
and answering no yields the initialization-cancelled error. When no config
loaded this is the new-config path and no gate runs. -/
def overrideGate (loadConfig : Except Err Config) (promptOverride : Except Err Bool) :
    Except Err Unit :=
  match loadConfig with
  | .error _ => .ok ()
  | .ok _ =>
    match promptOverride with
    | .error e => .error e
    | .ok true => .ok ()
    | .ok false => .error (.msg "initialization cancelled")

/-- PreValidateFunc (init.go lines 94-191): the override gate, then each
missing argument is resolved in order: secret key via promptSecretKey, zone
via the zone prompt followed by scw.ParseZone, region derived from the zone,
organization ID via getOrganizationID, and the send-usage flag via a
confirmation prompt. In the zone step the source overwrites the error
returned by the prompt with the error returned by ParseZone before any check
(lines 138-150), so a zone-prompt error is never examined: the model feeds
ParseZone the empty string (the Go zero value a failed prompt returns)
exactly as the source does. -/
def preValidate (env : PreValidateEnv) (args : InitArgs) : PreOutcome :=
  match overrideGate env.loadConfig env.promptOverride with
  | .error e => ⟨some (.error e), none, false, none, false⟩
  | .ok _ =>
    let skStep : Option (Except Err String) × Option SKOutcome :=
      if args.secretKey = "" then
        let o := promptSecretKey env.secretKeyEnv
        (o.result, some o)
      else (some (.ok args.secretKey), none)
    match skStep with
    | (none, skOut) => ⟨none, skOut, false, none, false⟩
    | (some (.error e), skOut) => ⟨some (.error e), skOut, false, none, false⟩
    | (some (.ok sk), skOut) =>
      let zoneRan := args.zone = ""
      let zoneStep : Except Err String :=
        if args.zone = "" then
          env.parseZone (match env.promptZone with | .ok s => s | .error _ => "")
        else .ok args.zone
      match zoneStep with
      | .error e => ⟨some (.error e), skOut, decide zoneRan, none, false⟩
      | .ok zone =>
        let regionStep : Except Err String :=
          if args.region = "" then zoneRegion zone else .ok args.region
        match regionStep with
        | .error e => ⟨some (.error e), skOut, decide zoneRan, none, false⟩
        | .ok region =>
          let orgStep : Except Err String × Option OrgOutcome :=
            if args.organizationID = "" then
              let o := getOrganizationID env.orgEnv sk
              (o.result, some o)
            else (.ok args.organizationID, none)
          match orgStep with
          | (.error e, orgOut) => ⟨some (.error e), skOut, decide zoneRan, orgOut, false⟩
          | (.ok orgID, orgOut) =>
            match args.sendUsage with
            | some b =>
              ⟨some (.ok { secretKey := sk, region := region, zone := zone,
                           organizationID := orgID, sendUsage := some b }),
               skOut, decide zoneRan, orgOut, false⟩
            | none =>
              match env.promptSendUsage with
              | .error e => ⟨some (.error e), skOut, decide zoneRan, orgOut, true⟩
              | .ok b =>
                ⟨some (.ok { secretKey := sk, region := region, zone := zone,
                             organizationID := orgID, sendUsage := some b }),
                 skOut, decide zoneRan, orgOut, true⟩

/-- The scripted collaborators of the whole command: those of PreValidateFunc
and those of Run. -/
structure CommandEnv where
  pre : PreValidateEnv
  runEnv : RunEnv

/-- Outcome of the whole command: its returned value, the configs passed to
save, and the PreValidateFunc outcome. -/
structure FlowOutcome where
  result : Option (Except Err Unit)
  saves : List Config
  pre : PreOutcome

/-- Modelled from the spec: the Command Framework (the core package is not
under src) runs PreValidateFunc first and invokes Run only when it returned
no error (spec section 4.5: the pre-flow gate executes before 4.1-4.4 and
declining terminates the entire flow with no mutation). -/
def initFlow (env : CommandEnv) (args : InitArgs) : FlowOutcome :=
  let p := preValidate env.pre args
  match p.result with
  | none => ⟨none, [], p⟩
  | some (.error e) => ⟨some (.error e), [], p⟩
  | some (.ok args2) =>
    let r := run env.runEnv args2
    ⟨some r.result, r.saves, p⟩

/-- The at-sign character is not accepted at any position of the UUID shape. -/
lemma uuidCharAt_at_false (i : Nat) : uuidCharAt i '@' = false := by
  unfold uuidCharAt
  split <;> decide

/-- A character list passing the UUID character check contains no at-sign. -/
lemma uuidChars_no_at :
    ∀ (i : Nat) (cs : List Char), uuidChars i cs = true → ('@' : Char) ∉ cs := by
  intro i cs
  induction cs generalizing i with
  | nil => intro _ h; cases h
  | cons c cs ih =>
    intro h hmem
    rw [uuidChars, Bool.and_eq_true] at h
    rcases List.mem_cons.mp hmem with hc | hmem2
    · rw [← hc, uuidCharAt_at_false] at h
      exact Bool.false_ne_true h.1
    · exact ih (i + 1) h.2 hmem2

/-- Splitting at the at-sign fails on a list containing no at-sign. -/
lemma splitAtSign_eq_none {cs : List Char} (h : ('@' : Char) ∉ cs) :
    splitAtSign cs = none := by
  induction cs with
  | nil => rfl
  | cons c cs ih =>
    rw [splitAtSign, if_neg, ih fun hm => h (List.mem_cons_of_mem _ hm)]
    · rfl
    · intro hc
      exact h (by rw [← hc]; exact List.mem_cons_self c cs)

/-- A UUID-shaped string is not email-shaped: the email shape demands an
at-sign and the UUID shape admits only hex digits and dashes. -/
lemma isEmail_eq_false_of_isUUID {s : String} (h : isUUID s = true) : isEmail s = false := by
  rw [isUUID, Bool.and_eq_true] at h
  unfold isEmail
  rw [splitAtSign_eq_none (uuidChars_no_at 0 _ h.2)]

/-- The classification switch sends every UUID-shaped string to the UUID
case: the email test, checked first, cannot also hold. -/
lemma classify_uuid {s : String} (h : isUUID s = true) :
    classify isEmail isUUID s = Classified.uuid := by
  simp [classify, isEmail_eq_false_of_isUUID h, h]

/-- C1: for an email input, when the login sequence answers
twoFactorRequired true then false, promptSecretKey issues exactly two login
calls, prompts for a 2FA code exactly once, prompts for the password exactly
once, and returns the secret key of the second login response. -/
theorem c1_email_two_logins (env : SecretKeyEnv) (s pw code : String) (t1 t2 : Token)
    (hr : env.readline = .ok s) (he : isEmail s = true)
    (hp : env.password = .ok pw)
    (hl : env.logins = [.ok (t1, true), .ok (t2, false)])
    (hc : env.twoFACodes = [.ok code]) :
    promptSecretKey env = ⟨some (.ok t2.secretKey), 2, 1, 1⟩ := by
  simp [promptSecretKey, hr, hp, hl, hc, classify, he, loginLoop]

/-- Witness for C1 at a concrete email, password, 2FA code and login
script. -/
theorem c1_email_two_logins_witness :
    isEmail "user@example.com" = true ∧
    promptSecretKey
      { readline := .ok "user@example.com", password := .ok "hunter2",
        logins := [.ok (⟨"sk-first"⟩, true), .ok (⟨"sk-second"⟩, false)],
        twoFACodes := [.ok "123456"] } =
      ⟨some (.ok "sk-second"), 2, 1, 1⟩ :=
  ⟨by decide,
   c1_email_two_logins _ "user@example.com" "hunter2" "123456" ⟨"sk-first"⟩ ⟨"sk-second"⟩
     rfl (by decide) rfl rfl rfl⟩

/-- C2 counterexample: the classification switch checks the email predicate
first, so on a string both predicates accept, the outcome is the Email case,
not the UUID case the claim states. -/
theorem c2_uuid_wins_counterexample :
    (fun _ : String => true) "x" = true ∧
    classify (fun _ => true) (fun _ => true) "x" = Classified.email ∧
    classify (fun _ => true) (fun _ => true) "x" ≠ Classified.uuid := by
  refine ⟨rfl, rfl, ?_⟩
  decide

/-- C2 amended: for every pair of shape predicates and every string both
accept, the classification switch yields the Email outcome, because the
email case is checked first; the string therefore triggers the email
authentication path rather than being returned literally. -/
theorem c2_email_precedence (p q : String → Bool) (s : String)
    (hp : p s = true) (_hq : q s = true) :
    classify p q s = Classified.email := by
  simp [classify, hp]

/-- Witness for the amended C2 at predicates that both accept a concrete
string. -/
theorem c2_email_precedence_witness :
    (fun _ : String => true) "x" = true ∧
    classify (fun _ => true) (fun _ => true) "x" = Classified.email :=
  ⟨rfl, c2_email_precedence (fun _ => true) (fun _ => true) "x" rfl rfl⟩

/-- C5: every UUID-shaped string accepted at the secret-key readline is
returned literally, with zero login calls, zero password prompts and zero
2FA prompts. -/
theorem c5_uuid_literal (env : SecretKeyEnv) (s : String)
    (hu : isUUID s = true) (hr : env.readline = .ok s) :
    promptSecretKey env = ⟨some (.ok s), 0, 0, 0⟩ := by
  simp [promptSecretKey, hr, classify_uuid hu]

/-- Witness for C5 at a concrete UUID-shaped string. -/
theorem c5_uuid_literal_witness :
    isUUID "01234567-89ab-cdef-0123-456789abcdef" = true ∧
    promptSecretKey
      { readline := .ok "01234567-89ab-cdef-0123-456789abcdef", password := .error .cancelled,
        logins := [], twoFACodes := [] } =
      ⟨some (.ok "01234567-89ab-cdef-0123-456789abcdef"), 0, 0, 0⟩ :=
  ⟨by decide, c5_uuid_literal _ "01234567-89ab-cdef-0123-456789abcdef" (by decide) rfl⟩

/-- C10: every string the readline validator accepts is classified to the
Email or the UUID case, never to the default case; equivalently, a
non-email accepted string is UUID-shaped. -/
theorem c10_default_case_unreachable (s : String)
    (hv : secretKeyPromptValidator s = true) :
    classify isEmail isUUID s ≠ Classified.invalid ∧
    (isEmail s = false → isUUID s = true) := by
  rw [secretKeyPromptValidator, isSecretKey, Bool.or_eq_true] at hv
  constructor
  · cases he : isEmail s with
    | false =>
      have hu : isUUID s = true := by
        rcases hv with h | h
        · rw [he] at h; exact absurd h Bool.false_ne_true
        · exact h
      simp [classify, he, hu]
    | true => simp [classify, he]
  · intro he
    rcases hv with h | h
    · rw [he] at h; exact absurd h Bool.false_ne_true
    · exact h

/-- Witness for C10 at a concrete validator-accepted string. -/
theorem c10_default_case_unreachable_witness :
    secretKeyPromptValidator "01234567-89ab-cdef-0123-456789abcdef" = true ∧
    (classify isEmail isUUID "01234567-89ab-cdef-0123-456789abcdef" ≠ Classified.invalid ∧
     (isEmail "01234567-89ab-cdef-0123-456789abcdef" = false →
      isUUID "01234567-89ab-cdef-0123-456789abcdef" = true)) :=
  ⟨by decide, c10_default_case_unreachable "01234567-89ab-cdef-0123-456789abcdef" (by decide)⟩

/-- Collaborator script for the zone-prompt cancellation scenario: no
existing config, secret key and region supplied externally, the zone prompt
returns a cancellation error, ParseZone accepts any string (the sdk parser
of this era warns on unknown zones but does not error), and the
organization list holds exactly one ID. -/
def c3Env : PreValidateEnv :=
  { loadConfig := .error (.msg "no config"),
    promptOverride := .ok true,
    secretKeyEnv :=
      { readline := .error .cancelled, password := .error .cancelled,
        logins := [], twoFACodes := [] },
    promptZone := .error .cancelled,
    parseZone := fun s => .ok s,
    orgEnv :=
      { getOrganizationsIds := fun _ => .ok ["11111111-1111-1111-1111-111111111111"],
        promptString := fun _ => .error .cancelled },
    promptSendUsage := .ok true }

/-- Arguments for the zone-prompt cancellation scenario: zone empty (so the
zone prompt runs), region supplied externally, organization ID left for the
resolver. -/
def c3Args : InitArgs :=
  { secretKey := "22222222-2222-2222-2222-222222222222", region := "fr-par",
    zone := "", organizationID := "", sendUsage := some true }

/-- C3 evidence: the source overwrites the zone-prompt error with the
ParseZone result before any check (init.go lines 138-150), so when the zone
prompt returns a cancellation error the flow does not return it: here
PreValidateFunc succeeds with an empty zone and the organization resolver
still runs, where the claim demands the prompt error to propagate with no
later resolver step running. -/
theorem c3_zone_prompt_error_ignored :
    c3Env.promptZone = Except.error Err.cancelled ∧
    (preValidate c3Env c3Args).result =
      some (.ok { secretKey := "22222222-2222-2222-2222-222222222222",
                  region := "fr-par", zone := "",
                  organizationID := "11111111-1111-1111-1111-111111111111",
                  sendUsage := some true }) ∧
    (preValidate c3Env c3Args).org.isSome = true := by
  refine ⟨rfl, rfl, rfl⟩

/-- C4: when the first save succeeds and the access-key fetch fails, Run
returns the CliError carrying the access-key failure detail string, and the
only save performed is the first one, holding the four profile fields; the
second save is not attempted and the saved config is not modified. -/
theorem c4_access_key_failure_keeps_first_save (env : RunEnv) (args : InitArgs) (e : Err)
    (hap : env.activeProfileOk = .ok ())
    (hs1 : env.save1 = none)
    (hak : env.getAccessKey args.secretKey = .error e) :
    run env args =
      ⟨.error (.cli e accessKeyFailDetails),
       [setProfileFields (applySendUsage (loadOrNewConfig env.loadConfig) args.sendUsage) args]⟩ := by
  simp [run, hap, hs1, hak]

/-- Witness for C4 at a concrete environment whose access-key fetch fails. -/
theorem c4_access_key_failure_keeps_first_save_witness :
    run
      { loadConfig := .error (.msg "no config"), activeProfileOk := .ok (),
        save1 := none, save2 := none,
        getAccessKey := fun _ => .error (.remote "service unavailable") }
      { secretKey := "33333333-3333-3333-3333-333333333333", region := "fr-par",
        zone := "fr-par-1", organizationID := "44444444-4444-4444-4444-444444444444",
        sendUsage := some true } =
      ⟨.error (.cli (.remote "service unavailable") accessKeyFailDetails),
       [{ sendUsage := true, activeProfile :=
          { secretKey := some "33333333-3333-3333-3333-333333333333",
            defaultZone := some "fr-par-1", defaultRegion := some "fr-par",
            defaultOrganizationID := some "44444444-4444-4444-4444-444444444444",
            accessKey := none } }]⟩ :=
  c4_access_key_failure_keeps_first_save _ _ _ rfl rfl rfl

/-- C6: when the organization-list query fails, the resolver does not abort:
it logs exactly the query error as a warning and then behaves exactly as on
an empty list, prompting with the same configuration and returning the same
result. -/
theorem c6_org_query_error_fallthrough (env : OrgEnv) (sk : String) (e : Err)
    (h : env.getOrganizationsIds sk = .error e) :
    (getOrganizationID env sk).result =
      (getOrganizationID { env with getOrganizationsIds := fun _ => .ok [] } sk).result ∧
    (getOrganizationID env sk).prompted =
      (getOrganizationID { env with getOrganizationsIds := fun _ => .ok [] } sk).prompted ∧
    (getOrganizationID env sk).warned = [e] := by
  simp [getOrganizationID, h, promptOrganizationID]

/-- Witness for C6 at a concrete failing query. -/
theorem c6_org_query_error_fallthrough_witness :
    (getOrganizationID
       { getOrganizationsIds := fun _ => .error (.remote "list failed"),
         promptString := fun _ => .ok "55555555-5555-5555-5555-555555555555" } "sk").result =
      (getOrganizationID
         { getOrganizationsIds := fun _ => .ok ([] : List String),
           promptString := fun _ => .ok "55555555-5555-5555-5555-555555555555" } "sk").result ∧
    (getOrganizationID
       { getOrganizationsIds := fun _ => .error (.remote "list failed"),
         promptString := fun _ => .ok "55555555-5555-5555-5555-555555555555" } "sk").prompted =
      (getOrganizationID
         { getOrganizationsIds := fun _ => .ok ([] : List String),
           promptString := fun _ => .ok "55555555-5555-5555-5555-555555555555" } "sk").prompted ∧
    (getOrganizationID
       { getOrganizationsIds := fun _ => .error (.remote "list failed"),
         promptString := fun _ => .ok "55555555-5555-5555-5555-555555555555" } "sk").warned =
      [.remote "list failed"] :=
  c6_org_query_error_fallthrough _ "sk" _ rfl

/-- C7: when the query returns exactly one ID the resolver returns it with
no prompt; when it returns zero or several IDs the resolver issues exactly
one prompt whose validator is the organization-ID shape validator and whose
default, when the list is nonempty, is its first element. -/
theorem c7_org_selection (env : OrgEnv) (sk : String) (IDs : List String)
    (h : env.getOrganizationsIds sk = .ok IDs) :
    (IDs.length = 1 →
       (getOrganizationID env sk).result = .ok (IDs.getD 0 "") ∧
       (getOrganizationID env sk).prompted = []) ∧
    (IDs.length ≠ 1 →
       ∃ c : PromptStringConfig,
         (getOrganizationID env sk).prompted = [c] ∧
         c.validate = validateOrganizationID ∧
         (0 < IDs.length → c.defaultValue = IDs.getD 0 "")) := by
  constructor
  · intro h1
    simp [getOrganizationID, h, h1]
  · intro h1
    refine ⟨(promptOrganizationID env.promptString IDs).2, ?_, ?_, ?_⟩
    · simp [getOrganizationID, h, if_pos h1]
    · simp only [promptOrganizationID]
      split <;> rfl
    · intro hpos
      simp [promptOrganizationID, hpos]

/-- Witness for C7 at a concrete one-element list and a concrete empty
list. -/
theorem c7_org_selection_witness :
    (([("66666666-6666-6666-6666-666666666666" : String)].length = 1 →
       (getOrganizationID
          { getOrganizationsIds := fun _ => .ok ["66666666-6666-6666-6666-666666666666"],
            promptString := fun _ => .error .cancelled } "sk").result =
         .ok (["66666666-6666-6666-6666-666666666666"].getD 0 "") ∧
       (getOrganizationID
          { getOrganizationsIds := fun _ => .ok ["66666666-6666-6666-6666-666666666666"],
            promptString := fun _ => .error .cancelled } "sk").prompted = []) ∧
     (["66666666-6666-6666-6666-666666666666"].length ≠ 1 →
       ∃ c : PromptStringConfig,
         (getOrganizationID
            { getOrganizationsIds := fun _ => .ok ["66666666-6666-6666-6666-666666666666"],
              promptString := fun _ => .error .cancelled } "sk").prompted = [c] ∧
         c.validate = validateOrganizationID ∧
         (0 < ["66666666-6666-6666-6666-666666666666"].length →
           c.defaultValue = ["66666666-6666-6666-6666-666666666666"].getD 0 ""))) :=
  c7_org_selection _ "sk" _ rfl

/-- C8: with an existing config and the override confirmation answered no,
the whole command returns the initialization-cancelled error, no save is
performed, and no resolver step runs: the secret-key resolver, the zone
prompt, the organization resolver and the send-usage prompt are all
skipped. -/
theorem c8_decline_override (env : CommandEnv) (args : InitArgs) (c : Config)
    (hc : env.pre.loadConfig = .ok c)
    (hd : env.pre.promptOverride = .ok false) :
    (initFlow env args).result = some (.error (.msg "initialization cancelled")) ∧
    (initFlow env args).saves = [] ∧
    (preValidate env.pre args).sk = none ∧
    (preValidate env.pre args).org.isNone = true ∧
    (preValidate env.pre args).zonePromptRan = false ∧
    (preValidate env.pre args).sendUsageRan = false := by
  simp [initFlow, preValidate, overrideGate, hc, hd]

/-- Collaborator script for the declined-override scenario: an existing
config loads and the override confirmation is answered no. -/
def c8Env : CommandEnv :=
  { pre :=
    { loadConfig := .ok { sendUsage := true, activeProfile := emptyProfile },
      promptOverride := .ok false,
      secretKeyEnv :=
        { readline := .error .cancelled, password := .error .cancelled,
          logins := [], twoFACodes := [] },
      promptZone := .error .cancelled, parseZone := fun s => .ok s,
      orgEnv := { getOrganizationsIds := fun _ => .ok [],
                  promptString := fun _ => .error .cancelled },
      promptSendUsage := .ok true },
    runEnv :=
    { loadConfig := .error (.msg "no config"), activeProfileOk := .ok (),
      save1 := none, save2 := none, getAccessKey := fun _ => .ok "AK" } }

/-- Arguments for the declined-override scenario: nothing supplied
externally. -/
def c8Args : InitArgs :=
  { secretKey := "", region := "", zone := "", organizationID := "", sendUsage := none }

/-- Witness for C8 at a concrete existing config and declined override. -/
theorem c8_decline_override_witness :
    c8Env.pre.loadConfig = .ok { sendUsage := true, activeProfile := emptyProfile } ∧
    c8Env.pre.promptOverride = .ok false ∧
    ((initFlow c8Env c8Args).result = some (.error (.msg "initialization cancelled")) ∧
     (initFlow c8Env c8Args).saves = [] ∧
     (preValidate c8Env.pre c8Args).sk = none ∧
     (preValidate c8Env.pre c8Args).org.isNone = true ∧
     (preValidate c8Env.pre c8Args).zonePromptRan = false ∧
     (preValidate c8Env.pre c8Args).sendUsageRan = false) :=
  ⟨rfl, rfl, c8_decline_override c8Env c8Args _ rfl rfl⟩

/-- C9: the zone fr-par-1 maps to the region fr-par, and when the region is
not supplied and the resolved zone has no known region, PreValidateFunc
aborts with that hard error before the organization resolver or the
send-usage prompt run, substituting no default region. -/
theorem c9_region_derived_from_zone (env : PreValidateEnv) (args : InitArgs) (e0 e : Err)
    (hload : env.loadConfig = .error e0)
    (hsk : args.secretKey ≠ "")
    (hz : args.zone ≠ "")
    (hr : args.region = "")
    (hzr : zoneRegion args.zone = .error e) :
    zoneRegion "fr-par-1" = .ok "fr-par" ∧
    (preValidate env args).result = some (.error e) ∧
    (preValidate env args).org.isNone = true ∧
    (preValidate env args).sendUsageRan = false := by
  refine ⟨rfl, ?_⟩
  simp [preValidate, overrideGate, hload, hsk, hz, hr, hzr]

/-- Witness for C9 at a concrete unknown zone. -/
theorem c9_region_derived_from_zone_witness :
    zoneRegion "fr-par-1" = .ok "fr-par" ∧
    (preValidate
       { loadConfig := .error (.msg "no config"), promptOverride := .ok true,
         secretKeyEnv :=
           { readline := .error .cancelled, password := .error .cancelled,
             logins := [], twoFACodes := [] },
         promptZone := .error .cancelled, parseZone := fun s => .ok s,
         orgEnv := { getOrganizationsIds := fun _ => .ok [],
                     promptString := fun _ => .error .cancelled },
         promptSendUsage := .ok true }
       { secretKey := "77777777-7777-7777-7777-777777777777", region := "",
         zone := "mars-1", organizationID := "", sendUsage := none }).result =
      some (.error (.msg "no region found for zone mars-1")) ∧
    (preValidate
       { loadConfig := .error (.msg "no config"), promptOverride := .ok true,
         secretKeyEnv :=
           { readline := .error .cancelled, password := .error .cancelled,
             logins := [], twoFACodes := [] },
         promptZone := .error .cancelled, parseZone := fun s => .ok s,
         orgEnv := { getOrganizationsIds := fun _ => .ok [],
                     promptString := fun _ => .error .cancelled },
         promptSendUsage := .ok true }
       { secretKey := "77777777-7777-7777-7777-777777777777", region := "",
         zone := "mars-1", organizationID := "", sendUsage := none }).org.isNone = true ∧
    (preValidate
       { loadConfig := .error (.msg "no config"), promptOverride := .ok true,
         secretKeyEnv :=
           { readline := .error .cancelled, password := .error .cancelled,
             logins := [], twoFACodes := [] },
         promptZone := .error .cancelled, parseZone := fun s => .ok s,
         orgEnv := { getOrganizationsIds := fun _ => .ok [],
                     promptString := fun _ => .error .cancelled },
         promptSendUsage := .ok true }
       { secretKey := "77777777-7777-7777-7777-777777777777", region := "",
         zone := "mars-1", organizationID := "", sendUsage := none }).sendUsageRan = false :=
  c9_region_derived_from_zone _ _ _ _ rfl (by decide) (by decide) rfl rfl

end ScwInit
